import Mathlib

/-!
Verification of the PertDist repository (Beta-PERT distribution).

Two embeddings are developed:

* an executable IEEE-style value model (`F`, NaN and signed infinities over
  exact rationals) together with a 1-D numpy-array model with broadcasting,
  used to verify the construction/validation layer of
  `src/src/pert/PERT.py` (`PERT.__init__` and `PERT.build`);

* a real-valued scalar model of the query surface of `src/src/pert/PERT.py`
  (pdf, cdf, sf, their logs and inverses, median, rvs, interval, ci, stats),
  parameterized by an abstract backend `BetaLib` standing for the external
  scipy capabilities (`scipy.stats.beta`, `scipy.stats.norm`), plus the
  divergent `cdf`/`pdf` of the older duplicate `src/pert/pert.py`.

The float model stores every derived field of `build` that is expressible in
exact arithmetic (alpha, beta, mean, var, kurt); `skew` needs a square root
and is covered by the real-valued model, where it is stored via `Real.sqrt`.
-/

namespace PertDist

/-- IEEE-style double value: a finite rational, +inf, -inf, or NaN. -/
inductive F where
  | fin : ℚ → F
  | inf : F
  | ninf : F
  | nan : F
deriving DecidableEq

instance : Inhabited F := ⟨F.nan⟩

/-- Strict `<` with IEEE semantics: every comparison with NaN is false. -/
def flt : F → F → Bool
  | F.fin p, F.fin q => decide (p < q)
  | F.fin _, F.inf => true
  | F.ninf, F.fin _ => true
  | F.ninf, F.inf => true
  | _, _ => false

/-- IEEE equality: NaN is equal to nothing, including itself. -/
def feq : F → F → Bool
  | F.fin p, F.fin q => decide (p = q)
  | F.inf, F.inf => true
  | F.ninf, F.ninf => true
  | _, _ => false

/-- Non-strict `≤` with IEEE semantics (false whenever NaN is involved). -/
def fle (x y : F) : Bool := flt x y || feq x y

/-- IEEE negation. -/
def fneg : F → F
  | F.fin q => F.fin (-q)
  | F.inf => F.ninf
  | F.ninf => F.inf
  | F.nan => F.nan

/-- IEEE addition: NaN propagates, inf + (-inf) is NaN. -/
def fadd : F → F → F
  | F.nan, _ => F.nan
  | _, F.nan => F.nan
  | F.inf, F.ninf => F.nan
  | F.ninf, F.inf => F.nan
  | F.inf, _ => F.inf
  | _, F.inf => F.inf
  | F.ninf, _ => F.ninf
  | _, F.ninf => F.ninf
  | F.fin p, F.fin q => F.fin (p + q)

/-- IEEE subtraction. -/
def fsub (x y : F) : F := fadd x (fneg y)

/-- IEEE multiplication: NaN propagates, inf * 0 is NaN. -/
def fmul : F → F → F
  | F.nan, _ => F.nan
  | _, F.nan => F.nan
  | F.inf, F.inf => F.inf
  | F.inf, F.ninf => F.ninf
  | F.ninf, F.inf => F.ninf
  | F.ninf, F.ninf => F.inf
  | F.inf, F.fin q => if 0 < q then F.inf else if q < 0 then F.ninf else F.nan
  | F.fin q, F.inf => if 0 < q then F.inf else if q < 0 then F.ninf else F.nan
  | F.ninf, F.fin q => if 0 < q then F.ninf else if q < 0 then F.inf else F.nan
  | F.fin q, F.ninf => if 0 < q then F.ninf else if q < 0 then F.inf else F.nan
  | F.fin p, F.fin q => F.fin (p * q)

/-- IEEE division as numpy performs it (division by zero yields an infinity
or NaN with a warning, never an exception). -/
def fdiv : F → F → F
  | F.nan, _ => F.nan
  | _, F.nan => F.nan
  | F.inf, F.inf => F.nan
  | F.inf, F.ninf => F.nan
  | F.ninf, F.inf => F.nan
  | F.ninf, F.ninf => F.nan
  | F.inf, F.fin q => if q < 0 then F.ninf else F.inf
  | F.ninf, F.fin q => if q < 0 then F.inf else F.ninf
  | F.fin _, F.inf => F.fin 0
  | F.fin _, F.ninf => F.fin 0
  | F.fin p, F.fin q =>
      if q = 0 then (if p = 0 then F.nan else if 0 < p then F.inf else F.ninf)
      else F.fin (p / q)

/-- Squaring, for the `** 2` in `build`. -/
def fsq (x : F) : F := fmul x x

/-- 1-D numpy broadcasting compatibility: equal lengths, or one side of
length one. -/
def compat (x y : List F) : Bool :=
  decide (x.length = y.length ∨ x.length = 1 ∨ y.length = 1)

/-- Broadcast two 1-D arrays into the list of elementwise operand pairs;
`none` models numpy raising its shape ValueError. -/
def bpair (x y : List F) : Option (List (F × F)) :=
  if x.length = y.length then some (x.zip y)
  else if x.length = 1 then some (y.map fun v => (x.headI, v))
  else if y.length = 1 then some (x.map fun v => (v, y.headI))
  else none

/-- The distinct failure outcomes of `PERT.__init__`: the three explicit
`ValueError` messages of the source, plus the broadcast `ValueError` numpy
raises on incompatible shapes. -/
inductive PErr where
  /-- message: lamb parameter should be greater than 0. -/
  | lambNotPositive : PErr
  /-- message: min_val parameter should be lower than ml_val. -/
  | minAboveMode : PErr
  /-- message: ml_val parameter should be lower than max_val. -/
  | modeAboveMax : PErr
  /-- message: min_val, ml_val and max_val parameter should be different. -/
  | pairwiseEqual : PErr
  /-- numpy: operands could not be broadcast together. -/
  | broadcastError : PErr
deriving DecidableEq

/-- The object state after `__init__`/`build` of `src/src/pert/PERT.py`,
restricted to the exactly-representable derived fields (see header). -/
structure PERTNF where
  a : List F
  b : List F
  c : List F
  lamb : F
  alpha : List F
  beta : List F
  mean : List F
  var : List F
  kurt : List F
deriving DecidableEq

/-- `np.any(f x y)` over a broadcast pair of arrays, raising on shape
mismatch; models the guard expressions of `PERT.__init__`. -/
def checkAny (e : PErr) (f : F → F → Bool) (x y : List F) : Except PErr Unit :=
  match bpair x y with
  | none => Except.error PErr.broadcastError
  | some ps => if ps.any (fun pr => f pr.1 pr.2) then Except.error e else Except.ok ()

/-- A broadcast elementwise binary operation, raising on shape mismatch. -/
def ewise (f : F → F → F) (x y : List F) : Except PErr (List F) :=
  match bpair x y with
  | none => Except.error PErr.broadcastError
  | some ps => Except.ok (ps.map fun pr => f pr.1 pr.2)

/-- `PERT.build` of `src/src/pert/PERT.py`: derives alpha, beta, mean, var
(and kurt) elementwise; each array-array operation broadcasts and can raise
numpy's shape error.  Scalar-array operations never raise. -/
def buildNF (a b c : List F) (lamb : F) : Except PErr PERTNF :=
  match ewise fsub b a with
  | Except.error e => Except.error e
  | Except.ok bma =>
  match ewise fsub c a with
  | Except.error e => Except.error e
  | Except.ok cma =>
  match ewise fdiv bma cma with
  | Except.error e => Except.error e
  | Except.ok q1 =>
  let alpha := q1.map fun v => fadd (F.fin 1) (fmul lamb v)
  match ewise fsub c b with
  | Except.error e => Except.error e
  | Except.ok cmb =>
  match ewise fdiv cmb cma with
  | Except.error e => Except.error e
  | Except.ok q2 =>
  let beta := q2.map fun v => fadd (F.fin 1) (fmul lamb v)
  let lb := b.map fun v => fmul lamb v
  match ewise fadd a lb with
  | Except.error e => Except.error e
  | Except.ok apl =>
  match ewise fadd apl c with
  | Except.error e => Except.error e
  | Except.ok s3 =>
  let mean := s3.map fun v => fdiv v (fadd (F.fin 2) lamb)
  match ewise fsub mean a with
  | Except.error e => Except.error e
  | Except.ok mma =>
  match ewise fsub c mean with
  | Except.error e => Except.error e
  | Except.ok cmm =>
  match ewise fmul mma cmm with
  | Except.error e => Except.error e
  | Except.ok vnum =>
  let var := vnum.map fun v => fdiv v (fadd lamb (F.fin 3))
  match ewise fsub alpha beta with
  | Except.error e => Except.error e
  | Except.ok amb =>
  match ewise fadd alpha beta with
  | Except.error e => Except.error e
  | Except.ok apb =>
  let apb1 := apb.map fun v => fadd v (F.fin 1)
  let apb2 := apb.map fun v => fadd v (F.fin 2)
  let apb3 := apb.map fun v => fadd v (F.fin 3)
  match ewise fmul (amb.map fsq) apb1 with
  | Except.error e => Except.error e
  | Except.ok t1 =>
  match ewise fmul alpha beta with
  | Except.error e => Except.error e
  | Except.ok ab =>
  match ewise fmul ab apb2 with
  | Except.error e => Except.error e
  | Except.ok t2 =>
  match ewise fadd t1 t2 with
  | Except.error e => Except.error e
  | Except.ok knum0 =>
  let knum := knum0.map fun v => fmul (fadd lamb (F.fin 2)) v
  match ewise fmul ab apb2 with
  | Except.error e => Except.error e
  | Except.ok d0 =>
  match ewise fmul d0 apb3 with
  | Except.error e => Except.error e
  | Except.ok kden =>
  match ewise fdiv knum kden with
  | Except.error e => Except.error e
  | Except.ok kurt =>
  Except.ok ⟨a, b, c, lamb, alpha, beta, mean, var, kurt⟩

/-- `PERT.__init__` of `src/src/pert/PERT.py`: the four guards in source
order (`lamb <= 0`; `np.any(b < a)`; `np.any(c < b)`;
`np.any(a == b) or np.any(b == c)` with Python short-circuit `or`),
then `build`. -/
def initNF (mi ml ma : List F) (lamb : F) : Except PErr PERTNF :=
  if fle lamb (F.fin 0) then Except.error PErr.lambNotPositive
  else
  match checkAny PErr.minAboveMode flt ml mi with
  | Except.error e => Except.error e
  | Except.ok _ =>
  match checkAny PErr.modeAboveMax flt ma ml with
  | Except.error e => Except.error e
  | Except.ok _ =>
  match checkAny PErr.pairwiseEqual feq mi ml with
  | Except.error e => Except.error e
  | Except.ok _ =>
  match checkAny PErr.pairwiseEqual feq ml ma with
  | Except.error e => Except.error e
  | Except.ok _ =>
  buildNF mi ml ma lamb

/-- Did construction succeed (produce an object)? -/
def eOk : Except PErr PERTNF → Bool
  | Except.ok _ => true
  | Except.error _ => false

/-- `np.any(x == y)` over a broadcast pair; false when the shapes do not
broadcast (that situation is covered by the broadcast error instead). -/
def anyEqB (x y : List F) : Bool :=
  match bpair x y with
  | some ps => ps.any fun pr => feq pr.1 pr.2
  | none => false

/-- Shapes of the three parameter arrays broadcast in every combination the
constructor and `build` use (b against a, c against b, c against a). -/
def mutCompat (mi ml ma : List F) : Bool :=
  compat ml mi && compat ma ml && compat ma mi

/-!
### Real-valued scalar model of the query surface of `src/src/pert/PERT.py`

The external numerical capabilities consumed from
`scipy.stats.beta` / `scipy.stats.norm` are abstracted as a structure of
pure functions.  `betaRVS` takes the Beta shape parameters, the requested
sample count and the RNG state it is run from; `rngNext` is how a draw
advances numpy's global RNG state when no explicit seed is supplied.
-/

/-- The external scipy capabilities used by `PERT`, as an abstract backend:
each Beta-distribution function takes its argument and the two shape
parameters. -/
structure BetaLib where
  betaPDF : ℝ → ℝ → ℝ → ℝ
  betaCDF : ℝ → ℝ → ℝ → ℝ
  betaSF : ℝ → ℝ → ℝ → ℝ
  betaLogSF : ℝ → ℝ → ℝ → ℝ
  betaPPF : ℝ → ℝ → ℝ → ℝ
  betaISF : ℝ → ℝ → ℝ → ℝ
  betaMedian : ℝ → ℝ → ℝ
  betaInterval : ℝ → ℝ → ℝ → ℝ × ℝ
  betaRVS : ℝ → ℝ → ℕ → ℕ → List ℝ
  rngNext : ℕ → ℕ → ℕ
  normCDF : ℝ → ℝ

/-- The stored fields of a `PERT` object after `__init__`/`build`
(scalar real-valued model). -/
structure PERT where
  a : ℝ
  b : ℝ
  c : ℝ
  lamb : ℝ
  alpha : ℝ
  beta : ℝ
  mean : ℝ
  var : ℝ
  skew : ℝ
  kurt : ℝ

/-- `self.alpha = 1 + (self.lamb * ((self.b-self.a) / (self.c-self.a)))`. -/
noncomputable def alphaOf (mi ml ma lamb : ℝ) : ℝ :=
  1 + lamb * ((ml - mi) / (ma - mi))

/-- `self.beta = 1 + (self.lamb * ((self.c-self.b) / (self.c-self.a)))`. -/
noncomputable def betaOf (mi ml ma lamb : ℝ) : ℝ :=
  1 + lamb * ((ma - ml) / (ma - mi))

/-- `self.mean = (self.a + (self.lamb*self.b) + self.c) / (2+self.lamb)`. -/
noncomputable def meanOf (mi ml ma lamb : ℝ) : ℝ :=
  (mi + lamb * ml + ma) / (2 + lamb)

/-- `self.var = ((self.mean-self.a) * (self.c-self.mean)) / (self.lamb+3)`. -/
noncomputable def varOf (mi ml ma lamb : ℝ) : ℝ :=
  (meanOf mi ml ma lamb - mi) * (ma - meanOf mi ml ma lamb) / (lamb + 3)

/-- `self.skew`, as a function of the already-stored alpha and beta. -/
noncomputable def skewOf (al be : ℝ) : ℝ :=
  2 * (be - al) * Real.sqrt (al + be + 1) / ((al + be + 2) * Real.sqrt (al * be))

/-- `self.kurt`, as a function of lamb and the stored alpha and beta. -/
noncomputable def kurtOf (lamb al be : ℝ) : ℝ :=
  (lamb + 2) * ((al - be) ^ 2 * (al + be + 1) + al * be * (al + be + 2)) /
    (al * be * (al + be + 2) * (al + be + 3))

/-- The object produced by a successful `PERT.__init__`:
stores the inputs and the derived fields computed by `build`. -/
noncomputable def mkPERT (mi ml ma lamb : ℝ) : PERT :=
  ⟨mi, ml, ma, lamb,
    alphaOf mi ml ma lamb, betaOf mi ml ma lamb,
    meanOf mi ml ma lamb, varOf mi ml ma lamb,
    skewOf (alphaOf mi ml ma lamb) (betaOf mi ml ma lamb),
    kurtOf lamb (alphaOf mi ml ma lamb) (betaOf mi ml ma lamb)⟩

/-- All four validation guards of `PERT.__init__` pass
(scalar real-valued reading, where no comparison involves NaN). -/
def validParams (mi ml ma lamb : ℝ) : Prop :=
  ¬(lamb ≤ 0) ∧ ¬(ml < mi) ∧ ¬(ma < ml) ∧ mi ≠ ml ∧ ml ≠ ma

/-- `np.clip(x, 0, 1)`. -/
noncomputable def clip01 (x : ℝ) : ℝ := min (max x 0) 1

/-- The `range` property: `self.c - self.a`. -/
noncomputable def prange (p : PERT) : ℝ := p.c - p.a

/-- The unit coordinate `((val - self.a) / self.range).clip(0,1)` common to
pdf/cdf/sf/logsf. -/
noncomputable def xunit (p : PERT) (val : ℝ) : ℝ :=
  clip01 ((val - p.a) / prange p)

/-- `PERT.pdf`: `beta_dist.pdf(x, alpha, beta) / range`. -/
noncomputable def pdf (L : BetaLib) (p : PERT) (val : ℝ) : ℝ :=
  L.betaPDF (xunit p val) p.alpha p.beta / prange p

/-- `PERT.logpdf`: `np.log(self.pdf(val))`. -/
noncomputable def logpdf (L : BetaLib) (p : PERT) (val : ℝ) : ℝ :=
  Real.log (pdf L p val)

/-- `PERT.cdf` of `src/src/pert/PERT.py`:
`beta_dist.cdf(x, alpha, beta)` with no range rescale. -/
noncomputable def cdf (L : BetaLib) (p : PERT) (val : ℝ) : ℝ :=
  L.betaCDF (xunit p val) p.alpha p.beta

/-- `PERT.sf`: `beta_dist.sf(x, alpha, beta)`. -/
noncomputable def sf (L : BetaLib) (p : PERT) (val : ℝ) : ℝ :=
  L.betaSF (xunit p val) p.alpha p.beta

/-- `PERT.logsf`: `beta_dist.logsf(x, alpha, beta)` (the library's stable
log-survival routine applied to the clipped coordinate). -/
noncomputable def logsf (L : BetaLib) (p : PERT) (val : ℝ) : ℝ :=
  L.betaLogSF (xunit p val) p.alpha p.beta

/-- `PERT.logcdf`: `np.log(self.cdf(val))`. -/
noncomputable def logcdf (L : BetaLib) (p : PERT) (val : ℝ) : ℝ :=
  Real.log (cdf L p val)

/-- `PERT.ppf`: `beta_dist.ppf(val, alpha, beta) * range + a`. -/
noncomputable def ppf (L : BetaLib) (p : PERT) (prob : ℝ) : ℝ :=
  L.betaPPF prob p.alpha p.beta * prange p + p.a

/-- `PERT.isf`: `beta_dist.isf(val, alpha, beta) * range + a`. -/
noncomputable def isf (L : BetaLib) (p : PERT) (prob : ℝ) : ℝ :=
  L.betaISF prob p.alpha p.beta * prange p + p.a

/-- `PERT.median`: `beta_dist(alpha, beta).median() * range + a`. -/
noncomputable def median (L : BetaLib) (p : PERT) : ℝ :=
  L.betaMedian p.alpha p.beta * prange p + p.a

/-- `PERT.stats`: the dict of the four cached moments, modelled as the
ordered tuple (mean, var, skewness, kurtosis). -/
noncomputable def stats (p : PERT) : ℝ × ℝ × ℝ × ℝ :=
  (p.mean, p.var, p.skew, p.kurt)

/-- `PERT.interval`: `beta_dist.interval(alpha, self.alpha, self.beta)`,
each endpoint rescaled by `* range + a`. -/
noncomputable def interval (L : BetaLib) (p : PERT) (alph : ℝ) : ℝ × ℝ :=
  ((L.betaInterval alph p.alpha p.beta).1 * prange p + p.a,
   (L.betaInterval alph p.alpha p.beta).2 * prange p + p.a)

/-- `PERT.ci`: coverage `norm.cdf(z) - norm.cdf(-z)`, then `interval`. -/
noncomputable def ci (L : BetaLib) (p : PERT) (z : ℝ) : ℝ × ℝ :=
  interval L p (L.normCDF z - L.normCDF (-z))

/-- `PERT.rvs`: draws from `beta_dist(alpha, beta)` rescaled by
`* range + a`.  A supplied `random_state` seeds a fresh generator; with
`none` the draw consumes (and advances) numpy's global RNG state `g`.
Returns the samples and the global state after the call. -/
noncomputable def rvs (L : BetaLib) (p : PERT) (size : ℕ)
    (random_state : Option ℕ) (g : ℕ) : List ℝ × ℕ :=
  match random_state with
  | some s => ((L.betaRVS p.alpha p.beta size s).map fun v => v * prange p + p.a, g)
  | none => ((L.betaRVS p.alpha p.beta size g).map fun v => v * prange p + p.a, L.rngNext g size)

/-- `PERT.cdf` of the older duplicate `src/pert/pert.py`: identical except
for a trailing `/ self.range`. -/
noncomputable def cdfV1 (L : BetaLib) (p : PERT) (val : ℝ) : ℝ :=
  L.betaCDF (xunit p val) p.alpha p.beta / prange p

/-- `PERT.pdf` of `src/pert/pert.py` (same expression as in
`src/src/pert/PERT.py`). -/
noncomputable def pdfV1 (L : BetaLib) (p : PERT) (val : ℝ) : ℝ :=
  L.betaPDF (xunit p val) p.alpha p.beta / prange p

/-!
### Method-call embedding for the frame property

A Python method call is a function of the receiver returning the result and
the post-call object state.  None of the query methods assigns to any field
of `self`, so each embedded call returns the receiver unchanged; the frame
theorem below states exactly that.
-/

/-- `pdf` as a method call: result together with the post-call state. -/
noncomputable def pdfCall (L : BetaLib) (val : ℝ) (p : PERT) : ℝ × PERT :=
  (pdf L p val, p)

/-- `logpdf` as a method call. -/
noncomputable def logpdfCall (L : BetaLib) (val : ℝ) (p : PERT) : ℝ × PERT :=
  (logpdf L p val, p)

/-- `cdf` as a method call. -/
noncomputable def cdfCall (L : BetaLib) (val : ℝ) (p : PERT) : ℝ × PERT :=
  (cdf L p val, p)

/-- `logcdf` as a method call. -/
noncomputable def logcdfCall (L : BetaLib) (val : ℝ) (p : PERT) : ℝ × PERT :=
  (logcdf L p val, p)

/-- `sf` as a method call. -/
noncomputable def sfCall (L : BetaLib) (val : ℝ) (p : PERT) : ℝ × PERT :=
  (sf L p val, p)

/-- `logsf` as a method call. -/
noncomputable def logsfCall (L : BetaLib) (val : ℝ) (p : PERT) : ℝ × PERT :=
  (logsf L p val, p)

/-- `ppf` as a method call. -/
noncomputable def ppfCall (L : BetaLib) (prob : ℝ) (p : PERT) : ℝ × PERT :=
  (ppf L p prob, p)

/-- `isf` as a method call. -/
noncomputable def isfCall (L : BetaLib) (prob : ℝ) (p : PERT) : ℝ × PERT :=
  (isf L p prob, p)

/-- `median` as a method call. -/
noncomputable def medianCall (L : BetaLib) (p : PERT) : ℝ × PERT :=
  (median L p, p)

/-- `rvs` as a method call (it may advance the global RNG state, but
assigns no field of `self`). -/
noncomputable def rvsCall (L : BetaLib) (size : ℕ) (random_state : Option ℕ)
    (g : ℕ) (p : PERT) : (List ℝ × ℕ) × PERT :=
  (rvs L p size random_state g, p)

/-- `interval` as a method call. -/
noncomputable def intervalCall (L : BetaLib) (alph : ℝ) (p : PERT) :
    (ℝ × ℝ) × PERT :=
  (interval L p alph, p)

/-- `ci` as a method call. -/
noncomputable def ciCall (L : BetaLib) (z : ℝ) (p : PERT) : (ℝ × ℝ) × PERT :=
  (ci L p z, p)

/-- `stats` as a method call. -/
noncomputable def statsCall (p : PERT) : (ℝ × ℝ × ℝ × ℝ) × PERT :=
  (stats p, p)

/-- A concrete backend used to witness the conditional theorems: the
Beta-distribution functions are instantiated with simple exactly-computable
stand-ins that satisfy the capability hypotheses used below. -/
noncomputable def LId : BetaLib where
  betaPDF := fun _ _ _ => 1
  betaCDF := fun x _ _ => min 1 (max 0 x)
  betaSF := fun x _ _ => 1 - x
  betaLogSF := fun _ _ _ => 0
  betaPPF := fun q _ _ => q
  betaISF := fun q _ _ => 1 - q
  betaMedian := fun _ _ => 1 / 2
  betaInterval := fun _ _ _ => (1 / 4, 3 / 4)
  betaRVS := fun _ _ _ _ => []
  rngNext := fun g _ => g + 1
  normCDF := fun _ => 1 / 2

/-!
### Helper lemmas
-/

/-- Incompatible 1-D shapes do not broadcast. -/
theorem bpair_none_of_not_compat {x y : List F} (h : compat x y = false) :
    bpair x y = none := by
  simp only [compat, decide_eq_false_iff_not] at h
  push_neg at h
  obtain ⟨h1, h2, h3⟩ := h
  simp [bpair, h1, h2, h3]

/-- Compatible 1-D shapes broadcast to some pair list. -/
theorem bpair_some_of_compat {x y : List F} (h : compat x y = true) :
    ∃ ps, bpair x y = some ps := by
  have hh : x.length = y.length ∨ x.length = 1 ∨ y.length = 1 := by
    simpa [compat] using h
  unfold bpair
  split_ifs with h1 h2 h3
  · exact ⟨_, rfl⟩
  · exact ⟨_, rfl⟩
  · exact ⟨_, rfl⟩
  · tauto

/-- A guard on non-broadcastable operands surfaces numpy's shape error. -/
theorem checkAny_err_of_not_compat (e : PErr) (f : F → F → Bool) {x y : List F}
    (h : compat x y = false) :
    checkAny e f x y = Except.error PErr.broadcastError := by
  unfold checkAny
  rw [bpair_none_of_not_compat h]

/-- A guard that passes did broadcast its operands and found no hit. -/
theorem checkAny_ok_elim {e : PErr} {f : F → F → Bool} {x y : List F} {u : Unit}
    (h : checkAny e f x y = Except.ok u) :
    ∃ ps, bpair x y = some ps ∧ ps.any (fun pr => f pr.1 pr.2) = false := by
  unfold checkAny at h
  cases hb : bpair x y with
  | none => rw [hb] at h; cases h
  | some ps =>
    rw [hb] at h
    dsimp only at h
    split_ifs at h with ha
    exact ⟨ps, rfl, by simpa using ha⟩

/-- Field projections of a constructed object. -/
theorem mkPERT_a (mi ml ma lamb : ℝ) : (mkPERT mi ml ma lamb).a = mi := rfl

/-- Field projections of a constructed object. -/
theorem mkPERT_c (mi ml ma lamb : ℝ) : (mkPERT mi ml ma lamb).c = ma := rfl

/-- Field projections of a constructed object. -/
theorem mkPERT_alpha (mi ml ma lamb : ℝ) :
    (mkPERT mi ml ma lamb).alpha = alphaOf mi ml ma lamb := rfl

/-- Field projections of a constructed object. -/
theorem mkPERT_beta (mi ml ma lamb : ℝ) :
    (mkPERT mi ml ma lamb).beta = betaOf mi ml ma lamb := rfl

/-- Field projections of a constructed object. -/
theorem mkPERT_mean (mi ml ma lamb : ℝ) :
    (mkPERT mi ml ma lamb).mean = meanOf mi ml ma lamb := rfl

/-- Field projections of a constructed object. -/
theorem mkPERT_var (mi ml ma lamb : ℝ) :
    (mkPERT mi ml ma lamb).var = varOf mi ml ma lamb := rfl

/-- Field projections of a constructed object. -/
theorem mkPERT_skew (mi ml ma lamb : ℝ) :
    (mkPERT mi ml ma lamb).skew =
      skewOf (alphaOf mi ml ma lamb) (betaOf mi ml ma lamb) := rfl

/-- The range of a constructed object. -/
theorem prange_mkPERT (mi ml ma lamb : ℝ) :
    prange (mkPERT mi ml ma lamb) = ma - mi := rfl

/-- Passing all four guards forces the strict ordering min < mode < max and
a positive lambda. -/
theorem validParams_elim {mi ml ma lamb : ℝ} (h : validParams mi ml ma lamb) :
    0 < lamb ∧ mi < ml ∧ ml < ma := by
  obtain ⟨h1, h2, h3, h4, h5⟩ := h
  exact ⟨not_le.mp h1, lt_of_le_of_ne (not_lt.mp h2) h4, lt_of_le_of_ne (not_lt.mp h3) h5⟩

/-- Clipping a non-positive value to the unit range gives 0. -/
theorem clip01_nonpos {x : ℝ} (h : x ≤ 0) : clip01 x = 0 := by
  unfold clip01
  rw [max_eq_right h, min_eq_left zero_le_one]

/-- Clipping a value at least 1 to the unit range gives 1. -/
theorem clip01_ge_one {x : ℝ} (h : 1 ≤ x) : clip01 x = 1 := by
  unfold clip01
  rw [max_eq_left (le_trans zero_le_one h), min_eq_right h]

/-- Clipping a value already in the unit range does nothing. -/
theorem clip01_mem {x : ℝ} (h0 : 0 ≤ x) (h1 : x ≤ 1) : clip01 x = x := by
  unfold clip01
  rw [max_eq_left h0, min_eq_left h1]

/-- The clipped unit coordinate of a constructed object. -/
theorem xunit_mkPERT (mi ml ma lamb val : ℝ) :
    xunit (mkPERT mi ml ma lamb) val = clip01 ((val - mi) / (ma - mi)) := rfl

/-!
### Claim theorems
-/

/-- Claim C1 (code_bug evidence): the constructor of `src/src/pert/PERT.py`
performs no finiteness check at all.  `PERT(nan, 1, 2, 4)`,
`PERT(0, 1, nan, 4)` and `PERT(0, 1, 2, inf)` all pass every guard (IEEE
comparisons with NaN are false) and construct an object, while the spec and
the repository's own test `test_non_finite_inputs_raise` require
`ValueError("Non-finite values present in inputs.")`. -/
theorem nonfinite_inputs_accepted :
    eOk (initNF [F.nan] [F.fin 1] [F.fin 2] (F.fin 4)) = true ∧
    eOk (initNF [F.fin 0] [F.fin 1] [F.nan] (F.fin 4)) = true ∧
    eOk (initNF [F.fin 0] [F.fin 1] [F.fin 2] F.inf) = true := ⟨rfl, rfl, rfl⟩

/-- Claim C2: whenever some broadcast component has min == mode or
mode == max, construction fails (whichever guard fires first) and no object
is produced; in particular `PERT(2, 2, 2)` raises the pairwise-difference
error. -/
theorem degenerate_inputs_rejected :
    (∀ (mi ml ma : List F) (lamb : F),
      (anyEqB mi ml = true ∨ anyEqB ml ma = true) →
      eOk (initNF mi ml ma lamb) = false) ∧
    initNF [F.fin 2] [F.fin 2] [F.fin 2] (F.fin 4) = Except.error PErr.pairwiseEqual := by
  constructor
  · intro mi ml ma lamb h
    unfold initNF
    split_ifs with hl
    · rfl
    cases hc1 : checkAny PErr.minAboveMode flt ml mi with
    | error e => simp only [hc1]; rfl
    | ok u1 =>
      simp only [hc1]
      cases hc2 : checkAny PErr.modeAboveMax flt ma ml with
      | error e => simp only [hc2]; rfl
      | ok u2 =>
        simp only [hc2]
        cases hc3 : checkAny PErr.pairwiseEqual feq mi ml with
        | error e => simp only [hc3]; rfl
        | ok u3 =>
          simp only [hc3]
          obtain ⟨ps, hps, hany⟩ := checkAny_ok_elim hc3
          have hab : anyEqB mi ml = false := by
            unfold anyEqB
            rw [hps]
            exact hany
          cases hc4 : checkAny PErr.pairwiseEqual feq ml ma with
          | error e => simp only [hc4]; rfl
          | ok u4 =>
            obtain ⟨qs, hqs, hqany⟩ := checkAny_ok_elim hc4
            have hbc : anyEqB ml ma = false := by
              unfold anyEqB
              rw [hqs]
              exact hqany
            rcases h with h | h
            · rw [hab] at h; cases h
            · rw [hbc] at h; cases h
  · rfl

/-- Witness for C2 at a concrete degenerate input (min == mode). -/
theorem degenerate_inputs_rejected_witness :
    eOk (initNF [F.fin 0] [F.fin 0] [F.fin 1] (F.fin 4)) = false :=
  degenerate_inputs_rejected.1 [F.fin 0] [F.fin 0] [F.fin 1] (F.fin 4) (Or.inl (by decide))

/-- Claim C3 (counterexample): with min of shape (2,) and mode = max of
shape (3,) all equal to 5, the claimed validation order would fire the
pairwise-difference check (mode == max) before any shape handling, and the
claimed shape failure would carry a dedicated "shape mismatch" error.  The
code instead raises numpy's broadcast error already at the `b < a`
comparison. -/
theorem shape_mismatch_counterexample :
    initNF [F.fin 0, F.fin 0] [F.fin 5, F.fin 5, F.fin 5] [F.fin 5, F.fin 5, F.fin 5] (F.fin 4)
      = Except.error PErr.broadcastError ∧
    PErr.broadcastError ≠ PErr.pairwiseEqual := ⟨rfl, by decide⟩

/-- Claim C3 as amended: construction with shapes that fail to broadcast in
some combination the constructor or `build` uses never produces an object
(the failure is numpy's broadcast error at the first incompatible
elementwise operation, which can precede later validation checks). -/
theorem shape_mismatch_always_fails (mi ml ma : List F) (lamb : F)
    (h : mutCompat mi ml ma = false) :
    eOk (initNF mi ml ma lamb) = false := by
  unfold initNF
  split_ifs with hl
  · rfl
  cases hA : compat ml mi with
  | false => rw [checkAny_err_of_not_compat PErr.minAboveMode flt hA]; rfl
  | true =>
    cases hc1 : checkAny PErr.minAboveMode flt ml mi with
    | error e => simp only [hc1]; rfl
    | ok u1 =>
      simp only [hc1]
      cases hB : compat ma ml with
      | false => rw [checkAny_err_of_not_compat PErr.modeAboveMax flt hB]; rfl
      | true =>
        cases hc2 : checkAny PErr.modeAboveMax flt ma ml with
        | error e => simp only [hc2]; rfl
        | ok u2 =>
          simp only [hc2]
          have hC : compat ma mi = false := by
            simp only [mutCompat, hA, hB, Bool.true_and] at h
            exact h
          cases hc3 : checkAny PErr.pairwiseEqual feq mi ml with
          | error e => simp only [hc3]; rfl
          | ok u3 =>
            simp only [hc3]
            cases hc4 : checkAny PErr.pairwiseEqual feq ml ma with
            | error e => simp only [hc4]; rfl
            | ok u4 =>
              simp only [hc4]
              obtain ⟨ps, hps⟩ := bpair_some_of_compat hA
              have h1 : ewise fsub ml mi = Except.ok (ps.map fun pr => fsub pr.1 pr.2) := by
                unfold ewise
                rw [hps]
              have h2 : ewise fsub ma mi = Except.error PErr.broadcastError := by
                unfold ewise
                rw [bpair_none_of_not_compat hC]
              unfold buildNF
              rw [h1, h2]
              rfl

/-- Witness for the amended C3 at a concrete non-broadcastable input. -/
theorem shape_mismatch_always_fails_witness :
    eOk (initNF [F.fin 0, F.fin 0] [F.fin 5, F.fin 5, F.fin 5] [F.fin 5, F.fin 5, F.fin 5] (F.fin 4)) = false :=
  shape_mismatch_always_fails [F.fin 0, F.fin 0] [F.fin 5, F.fin 5, F.fin 5]
    [F.fin 5, F.fin 5, F.fin 5] (F.fin 4) (by decide)

/-- Claim C4: for every validly constructed distribution, `cdf` is the Beta
CDF of the clipped unit coordinate with no division by range; assuming the
library's Beta CDF is 0 at 0 and 1 at 1, cdf(min) = 0, cdf(max) = 1,
cdf(x) = 0 below min and cdf(x) = 1 above max. -/
theorem cdf_clipped_unit_boundaries (L : BetaLib) (mi ml ma lamb : ℝ)
    (h : validParams mi ml ma lamb)
    (h0 : L.betaCDF 0 (alphaOf mi ml ma lamb) (betaOf mi ml ma lamb) = 0)
    (h1 : L.betaCDF 1 (alphaOf mi ml ma lamb) (betaOf mi ml ma lamb) = 1) :
    (∀ x, cdf L (mkPERT mi ml ma lamb) x =
      L.betaCDF (clip01 ((x - mi) / (ma - mi)))
        (alphaOf mi ml ma lamb) (betaOf mi ml ma lamb)) ∧
    cdf L (mkPERT mi ml ma lamb) mi = 0 ∧
    cdf L (mkPERT mi ml ma lamb) ma = 1 ∧
    (∀ x, x < mi → cdf L (mkPERT mi ml ma lamb) x = 0) ∧
    (∀ x, ma < x → cdf L (mkPERT mi ml ma lamb) x = 1) := by
  obtain ⟨hlam, hab, hbc⟩ := validParams_elim h
  have hr : 0 < ma - mi := by linarith
  refine ⟨fun x => rfl, ?_, ?_, ?_, ?_⟩
  · rw [cdf, xunit_mkPERT, mkPERT_alpha, mkPERT_beta]
    rw [show (mi - mi) / (ma - mi) = 0 by rw [sub_self, zero_div]]
    rw [clip01_mem le_rfl zero_le_one]
    exact h0
  · rw [cdf, xunit_mkPERT, mkPERT_alpha, mkPERT_beta]
    rw [div_self (ne_of_gt hr), clip01_ge_one le_rfl]
    exact h1
  · intro x hx
    rw [cdf, xunit_mkPERT, mkPERT_alpha, mkPERT_beta]
    have hle : (x - mi) / (ma - mi) ≤ 0 :=
      le_of_lt (div_neg_of_neg_of_pos (by linarith) hr)
    rw [clip01_nonpos hle]
    exact h0
  · intro x hx
    rw [cdf, xunit_mkPERT, mkPERT_alpha, mkPERT_beta]
    have hge : 1 ≤ (x - mi) / (ma - mi) :=
      le_of_lt ((one_lt_div hr).mpr (by linarith))
    rw [clip01_ge_one hge]
    exact h1

/-- Witness for C4 on a concrete distribution and stand-in Beta backend. -/
theorem cdf_clipped_unit_boundaries_witness :
    cdf LId (mkPERT 0 1 2 4) 0 = 0 ∧ cdf LId (mkPERT 0 1 2 4) 2 = 1 :=
  ⟨(cdf_clipped_unit_boundaries LId 0 1 2 4 (by norm_num [validParams])
      (by norm_num [LId]) (by norm_num [LId])).2.1,
   (cdf_clipped_unit_boundaries LId 0 1 2 4 (by norm_num [validParams])
      (by norm_num [LId]) (by norm_num [LId])).2.2.1⟩

/-- Claim C5: the cached shape parameters satisfy
alpha = 1 + lambda*(b - a)/r and beta = 1 + lambda*(c - b)/r with
r = c - a, and the symmetric case min=0, mode=5, max=10, lambda=4 yields
alpha = beta = 3, mean = 5, var = 25/7 and skew = 0. -/
theorem shape_params_moments_formulas (mi ml ma lamb : ℝ)
    (h : validParams mi ml ma lamb) :
    ((mkPERT mi ml ma lamb).alpha = 1 + lamb * (ml - mi) / (ma - mi) ∧
     (mkPERT mi ml ma lamb).beta = 1 + lamb * (ma - ml) / (ma - mi)) ∧
    ((mkPERT 0 5 10 4).alpha = 3 ∧ (mkPERT 0 5 10 4).beta = 3 ∧
     (mkPERT 0 5 10 4).mean = 5 ∧ (mkPERT 0 5 10 4).var = 25 / 7 ∧
     (mkPERT 0 5 10 4).skew = 0) := by
  have hA : alphaOf 0 5 10 4 = 3 := by norm_num [alphaOf]
  have hB : betaOf 0 5 10 4 = 3 := by norm_num [betaOf]
  refine ⟨⟨?_, ?_⟩, ?_, ?_, ?_, ?_, ?_⟩
  · rw [mkPERT_alpha, alphaOf, mul_div_assoc]
  · rw [mkPERT_beta, betaOf, mul_div_assoc]
  · rw [mkPERT_alpha, hA]
  · rw [mkPERT_beta, hB]
  · rw [mkPERT_mean]; norm_num [meanOf]
  · rw [mkPERT_var]; norm_num [varOf, meanOf]
  · rw [mkPERT_skew, hA, hB, skewOf]; norm_num

/-- Witness for C5 at the symmetric concrete case. -/
theorem shape_params_moments_formulas_witness :
    (mkPERT 0 5 10 4).alpha = 3 ∧ (mkPERT 0 5 10 4).var = 25 / 7 :=
  ⟨(shape_params_moments_formulas 0 5 10 4 (by norm_num [validParams])).2.1,
   (shape_params_moments_formulas 0 5 10 4 (by norm_num [validParams])).2.2.2.2.1⟩

/-- Claim C6: assuming the external library's PPF inverts its CDF and its
ISF inverts its SF on the open unit interval, every x strictly inside
(min, max) satisfies ppf(cdf(x)) = x and isf(sf(x)) = x exactly in the
real-number model. -/
theorem ppf_cdf_isf_sf_roundtrip (L : BetaLib) (mi ml ma lamb : ℝ)
    (h : validParams mi ml ma lamb)
    (hpc : ∀ u : ℝ, 0 < u → u < 1 →
      L.betaPPF (L.betaCDF u (alphaOf mi ml ma lamb) (betaOf mi ml ma lamb))
        (alphaOf mi ml ma lamb) (betaOf mi ml ma lamb) = u)
    (hsi : ∀ u : ℝ, 0 < u → u < 1 →
      L.betaISF (L.betaSF u (alphaOf mi ml ma lamb) (betaOf mi ml ma lamb))
        (alphaOf mi ml ma lamb) (betaOf mi ml ma lamb) = u) :
    ∀ x, mi < x → x < ma →
      ppf L (mkPERT mi ml ma lamb) (cdf L (mkPERT mi ml ma lamb) x) = x ∧
      isf L (mkPERT mi ml ma lamb) (sf L (mkPERT mi ml ma lamb) x) = x := by
  obtain ⟨hlam, hab, hbc⟩ := validParams_elim h
  have hr : 0 < ma - mi := by linarith
  intro x hx1 hx2
  have hu0 : 0 < (x - mi) / (ma - mi) := div_pos (by linarith) hr
  have hu1 : (x - mi) / (ma - mi) < 1 := (div_lt_one hr).mpr (by linarith)
  have hxu : xunit (mkPERT mi ml ma lamb) x = (x - mi) / (ma - mi) := by
    rw [xunit_mkPERT, clip01_mem (le_of_lt hu0) (le_of_lt hu1)]
  have hcancel : (x - mi) / (ma - mi) * (ma - mi) + mi = x := by
    field_simp
  constructor
  · rw [ppf, cdf, hxu, mkPERT_alpha, mkPERT_beta, mkPERT_a, prange_mkPERT,
      hpc _ hu0 hu1, hcancel]
  · rw [isf, sf, hxu, mkPERT_alpha, mkPERT_beta, mkPERT_a, prange_mkPERT,
      hsi _ hu0 hu1, hcancel]

/-- Witness for C6 on a concrete distribution and stand-in Beta backend. -/
theorem ppf_cdf_isf_sf_roundtrip_witness :
    ppf LId (mkPERT 0 1 2 4) (cdf LId (mkPERT 0 1 2 4) 1) = 1 :=
  (ppf_cdf_isf_sf_roundtrip LId 0 1 2 4 (by norm_num [validParams])
    (fun u h0 h1 => by simp [LId, max_eq_right h0.le, min_eq_right h1.le])
    (fun u h0 h1 => by simp [LId]) 1 (by norm_num) (by norm_num)).1

/-- Claim C7: ci(z) delegates exactly to interval at coverage
normCDF(z) - normCDF(-z); assuming the library's central interval lies in
the unit square with ordered endpoints, the returned pair is ordered and
lies within [min, max]. -/
theorem ci_delegates_to_interval (L : BetaLib) (mi ml ma lamb z : ℝ)
    (h : validParams mi ml ma lamb)
    (hI0 : 0 ≤ (L.betaInterval (L.normCDF z - L.normCDF (-z))
      (alphaOf mi ml ma lamb) (betaOf mi ml ma lamb)).1)
    (hI1 : (L.betaInterval (L.normCDF z - L.normCDF (-z))
      (alphaOf mi ml ma lamb) (betaOf mi ml ma lamb)).1 ≤
      (L.betaInterval (L.normCDF z - L.normCDF (-z))
      (alphaOf mi ml ma lamb) (betaOf mi ml ma lamb)).2)
    (hI2 : (L.betaInterval (L.normCDF z - L.normCDF (-z))
      (alphaOf mi ml ma lamb) (betaOf mi ml ma lamb)).2 ≤ 1) :
    ci L (mkPERT mi ml ma lamb) z =
      interval L (mkPERT mi ml ma lamb) (L.normCDF z - L.normCDF (-z)) ∧
    (ci L (mkPERT mi ml ma lamb) z).1 ≤ (ci L (mkPERT mi ml ma lamb) z).2 ∧
    mi ≤ (ci L (mkPERT mi ml ma lamb) z).1 ∧
    (ci L (mkPERT mi ml ma lamb) z).2 ≤ ma := by
  obtain ⟨hlam, hab, hbc⟩ := validParams_elim h
  have hr : 0 < ma - mi := by linarith
  refine ⟨rfl, ?_, ?_, ?_⟩
  · show (interval L (mkPERT mi ml ma lamb) (L.normCDF z - L.normCDF (-z))).1 ≤
      (interval L (mkPERT mi ml ma lamb) (L.normCDF z - L.normCDF (-z))).2
    rw [interval]
    dsimp only
    rw [mkPERT_alpha, mkPERT_beta, mkPERT_a, prange_mkPERT]
    nlinarith [mul_le_mul_of_nonneg_right hI1 (le_of_lt hr)]
  · show mi ≤ (interval L (mkPERT mi ml ma lamb) (L.normCDF z - L.normCDF (-z))).1
    rw [interval]
    dsimp only
    rw [mkPERT_alpha, mkPERT_beta, mkPERT_a, prange_mkPERT]
    nlinarith [mul_nonneg hI0 (le_of_lt hr)]
  · show (interval L (mkPERT mi ml ma lamb) (L.normCDF z - L.normCDF (-z))).2 ≤ ma
    rw [interval]
    dsimp only
    rw [mkPERT_alpha, mkPERT_beta, mkPERT_a, prange_mkPERT]
    nlinarith [mul_le_mul_of_nonneg_right hI2 (le_of_lt hr)]

/-- Witness for C7 on a concrete distribution and stand-in Beta backend. -/
theorem ci_delegates_to_interval_witness :
    ci LId (mkPERT 0 1 2 4) 1 =
      interval LId (mkPERT 0 1 2 4) (LId.normCDF 1 - LId.normCDF (-1)) :=
  (ci_delegates_to_interval LId 0 1 2 4 1 (by norm_num [validParams])
    (by norm_num [LId]) (by norm_num [LId]) (by norm_num [LId])).1

/-- Claim C8: `rvs` with an explicit random_state seeds a fresh generator,
so its output depends only on the distribution parameters, the size and the
seed — two calls with identical seed and size return identical samples
whatever numpy's ambient global RNG state is at either call. -/
theorem rvs_seeded_reproducible (L : BetaLib) (p : PERT) (size s g1 g2 : ℕ) :
    (rvs L p size (some s) g1).1 = (rvs L p size (some s) g2).1 := rfl

/-- Claim C9: no query method assigns any field of the object — the
post-call state of every embedded method call is the receiver itself, so
a, b, c, lamb, alpha, beta, mean, var, skew and kurt are unchanged. -/
theorem queries_preserve_fields (L : BetaLib) (p : PERT) (x prob al z : ℝ)
    (size : ℕ) (rs : Option ℕ) (g : ℕ) :
    (pdfCall L x p).2 = p ∧ (logpdfCall L x p).2 = p ∧ (cdfCall L x p).2 = p ∧
    (logcdfCall L x p).2 = p ∧ (sfCall L x p).2 = p ∧ (logsfCall L x p).2 = p ∧
    (ppfCall L prob p).2 = p ∧ (isfCall L prob p).2 = p ∧ (medianCall L p).2 = p ∧
    (rvsCall L size rs g p).2 = p ∧ (intervalCall L al p).2 = p ∧
    (ciCall L z p).2 = p ∧ (statsCall p).2 = p :=
  ⟨rfl, rfl, rfl, rfl, rfl, rfl, rfl, rfl, rfl, rfl, rfl, rfl, rfl⟩

/-- Claim C10: on every commonly accepted input the cdf of
`src/pert/pert.py` equals the cdf of `src/src/pert/PERT.py` divided by
range; the two cdfs agree as functions precisely when range = 1 (assuming
the library's Beta CDF is 1 at 1); and the two pdf methods compute the same
value everywhere. -/
theorem cdf_variants_divergence (L : BetaLib) (mi ml ma lamb : ℝ)
    (h : validParams mi ml ma lamb)
    (h1 : L.betaCDF 1 (alphaOf mi ml ma lamb) (betaOf mi ml ma lamb) = 1) :
    (∀ x, cdfV1 L (mkPERT mi ml ma lamb) x =
      cdf L (mkPERT mi ml ma lamb) x / prange (mkPERT mi ml ma lamb)) ∧
    ((∀ x, cdfV1 L (mkPERT mi ml ma lamb) x = cdf L (mkPERT mi ml ma lamb) x) ↔
      prange (mkPERT mi ml ma lamb) = 1) ∧
    (∀ x, pdfV1 L (mkPERT mi ml ma lamb) x = pdf L (mkPERT mi ml ma lamb) x) := by
  obtain ⟨hlam, hab, hbc⟩ := validParams_elim h
  have hr : 0 < ma - mi := by linarith
  have hcm : cdf L (mkPERT mi ml ma lamb) ma = 1 := by
    rw [cdf, xunit_mkPERT, mkPERT_alpha, mkPERT_beta,
      div_self (ne_of_gt hr), clip01_ge_one le_rfl]
    exact h1
  refine ⟨fun x => rfl, ⟨?_, ?_⟩, fun x => rfl⟩
  · intro hall
    have h2 : cdf L (mkPERT mi ml ma lamb) ma / prange (mkPERT mi ml ma lamb)
        = cdf L (mkPERT mi ml ma lamb) ma := hall ma
    rw [hcm, prange_mkPERT] at h2
    rw [prange_mkPERT]
    have hrne : ma - mi ≠ 0 := ne_of_gt hr
    field_simp at h2
    linarith
  · intro hone x
    rw [cdfV1, cdf, hone]
    rw [prange_mkPERT] at hone
    rw [xunit, prange_mkPERT, mkPERT_a, hone]
    simp

/-- Witness for C10 on a concrete distribution and stand-in Beta backend. -/
theorem cdf_variants_divergence_witness :
    cdfV1 LId (mkPERT 0 1 2 4) 5 =
      cdf LId (mkPERT 0 1 2 4) 5 / prange (mkPERT 0 1 2 4) :=
  (cdf_variants_divergence LId 0 1 2 4 (by norm_num [validParams])
    (by norm_num [LId])).1 5

end PertDist
